import Mathlib

/-!
Verification of the `zero_modbus` Python client
(`src/zero_modbus_pyclient/pyclient.py`) against its natural-language
specification.

The client performs one blocking request/reply exchange per call.  We embed
the response-handling pipeline of `ZmbClient.__do_request` shallowly:

* JSON documents (the output of Python `json.loads`) become the inductive
  type `Json`.  Numeric payloads are modelled as integers; no property below
  depends on non-integral numbers.
* The observable outcome of the transport + decode + parse stages becomes
  `RecvOutcome`: either an exception in `send_json`/`recv`
  (`transportFail`), a `UnicodeDecodeError` in `.decode('ASCII')`
  (`decodeFail`), a `ValueError` in `loads` (`parseFail`), or the parsed
  document (`parsed j`).
* Raised Python exceptions become the `Except PyError` error monad.
* The Python dict produced by `loads` is modelled as an entry list with
  the dict operations `popitem` (remove and return the last entry) and
  subscript lookup (`dictGet`) translated explicitly, because
  `__do_request` mutates the dict via `popitem` before re-reading it.

A second, byte-level entry point `doRequestBytes` models the two decoding
lines (`recv().decode('ASCII')` then `loads`) on the raw reply bytes,
parameterised over the external `json.loads`; it feeds the same parsed-level
pipeline.
-/

/-- A structured document as produced by Python `json.loads`: a mapping with
string keys, or a string, number, boolean, array, or null.  Numbers are
modelled as integers. -/
inductive Json where
  | str (s : String)
  | num (n : Int)
  | bool (b : Bool)
  | null
  | arr (elems : List Json)
  | obj (entries : List (String × Json))


/-- What the client observed from the transport and the two decoding steps of
`__do_request`, up to and including `loads`:
`transportFail` — `send_json` or `recv` raised;
`decodeFail` — `recv` returned bytes but `.decode('ASCII')` raised;
`parseFail` — the text decoded but `loads` raised;
`parsed j` — `loads` returned the document `j`. -/
inductive RecvOutcome where
  | transportFail
  | decodeFail
  | parseFail
  | parsed (j : Json)


/-- The underlying cause wrapped by `ZeroModbusError("INVAILED RESPONSE", e)`:
which statement of the `try` block raised. -/
inductive Cause where
  | transport
  | unicodeDecode
  | jsonParse
  | assertNotDict
  | assertKeyCount
  | popitemEmpty
  | assertBadKey


/-- A Python exception escaping `__do_request`:
`zmbInvalidResponse c` — `ZeroModbusError("INVAILED RESPONSE", e)` with
underlying cause `c`;
`zmbReported m` — `ZeroModbusError(response[key])` carrying the server
payload `m` (the `key == 'ERROR'` branch as written);
`pyKeyError k` — an uncaught `KeyError(k)` raised by the subscript
`response[key]` itself. -/
inductive PyError where
  | zmbInvalidResponse (cause : Cause)
  | zmbReported (msg : Json)
  | pyKeyError (k : String)


/-- Python `dict.popitem()` on a dict modelled as its entry list: removes and
returns the last entry (LIFO, Python >= 3.7), or fails on an empty dict. -/
def popitem : List (String × Json) → Option ((String × Json) × List (String × Json))
  | [] => none
  | [e] => some (e, [])
  | e :: e' :: rest =>
    match popitem (e' :: rest) with
    | some (last, front) => some (last, e :: front)
    | none => none

/-- Python dict subscription `d[k]` on the entry-list model: the value at the
first entry with key `k`, or `none` (a `KeyError`) when `k` is absent. -/
def dictGet : List (String × Json) → String → Option Json
  | [], _ => none
  | (k', v) :: rest, k => if k' = k then some v else dictGet rest k

/-- The four recognized envelope kinds, in the order of the membership test
`key in ('ERROR', 'TEST', 'GET', 'SET')`. -/
def recognizedKinds : List String := ["ERROR", "TEST", "GET", "SET"]

/-- `ZmbClient.__do_request`, from the outcome of the receive/decode/parse
stages onwards.  Mirrors the Python statement by statement:
the three asserts (`type(response) == dict`, `len(response.keys()) == 1`,
`key in (...)`) plus any exception in the earlier stages are caught and
re-raised as `ZeroModbusError("INVAILED RESPONSE", e)`;
then outside the `try`, if `key == 'ERROR'` the code evaluates
`response[key]` — on the dict already emptied by `popitem` — to build
`ZeroModbusError(response[key])`; otherwise the payload `value` is
returned. -/
def doRequest (o : RecvOutcome) : Except PyError Json :=
  match o with
  | RecvOutcome.transportFail =>
    Except.error (PyError.zmbInvalidResponse Cause.transport)
  | RecvOutcome.decodeFail =>
    Except.error (PyError.zmbInvalidResponse Cause.unicodeDecode)
  | RecvOutcome.parseFail =>
    Except.error (PyError.zmbInvalidResponse Cause.jsonParse)
  | RecvOutcome.parsed j =>
    match j with
    | Json.obj entries =>
      if entries.length = 1 then
        match popitem entries with
        | some ((key, value), remaining) =>
          if recognizedKinds.contains key then
            if key = "ERROR" then
              match dictGet remaining key with
              | some msg => Except.error (PyError.zmbReported msg)
              | none => Except.error (PyError.pyKeyError key)
            else
              Except.ok value
          else
            Except.error (PyError.zmbInvalidResponse Cause.assertBadKey)
        | none =>
          Except.error (PyError.zmbInvalidResponse Cause.popitemEmpty)
      else
        Except.error (PyError.zmbInvalidResponse Cause.assertKeyCount)
    | _ =>
      Except.error (PyError.zmbInvalidResponse Cause.assertNotDict)

/-- Python `uuid == value` where `uuid` is a `str` and `value` an arbitrary
decoded document: true exactly when `value` is an equal string (Python string
equality returns `False` against any non-`str`). -/
def pyStrEqJson (s : String) (v : Json) : Bool :=
  match v with
  | Json.str t => s == t
  | _ => false

/-- The request envelope `ZmbClient.test` sends: `{ 'TEST': uuid }`. -/
def ZmbClient.testRequest (uuid : String) : Json :=
  Json.obj [("TEST", Json.str uuid)]

/-- The request envelope `ZmbClient.get` sends: `{ 'GET': paths }`. -/
def ZmbClient.getRequest (paths : List String) : Json :=
  Json.obj [("GET", Json.arr (paths.map Json.str))]

/-- The request envelope `ZmbClient.set` sends: `{ 'SET': pairs }`. -/
def ZmbClient.setRequest (pairs : List (String × Json)) : Json :=
  Json.obj [("SET", Json.obj pairs)]

/-- `ZmbClient.test`: generates a token `uuid`, sends `{ 'TEST': uuid }`, and
returns `uuid == __do_request(...)`.  The fresh token is a parameter; the
pair is (envelope sent, result of the call). -/
def ZmbClient.test (uuid : String) (o : RecvOutcome) :
    Json × Except PyError Bool :=
  (ZmbClient.testRequest uuid,
   match doRequest o with
   | Except.error e => Except.error e
   | Except.ok v => Except.ok (pyStrEqJson uuid v))

/-- `ZmbClient.get`: sends `{ 'GET': paths }` and returns
`__do_request(...)` unmodified. -/
def ZmbClient.get (paths : List String) (o : RecvOutcome) :
    Json × Except PyError Json :=
  (ZmbClient.getRequest paths, doRequest o)

/-- `ZmbClient.set`: sends `{ 'SET': pairs }` and returns
`__do_request(...)` unmodified. -/
def ZmbClient.set (pairs : List (String × Json)) (o : RecvOutcome) :
    Json × Except PyError Json :=
  (ZmbClient.setRequest pairs, doRequest o)

/-- A document is a well-formed envelope when it is a mapping with exactly one
entry whose key is one of the four recognized kinds. -/
def isWellFormedEnvelope (j : Json) : Bool :=
  match j with
  | Json.obj [(k, _)] => recognizedKinds.contains k
  | _ => false

/-- A receive outcome is malformed when the transport, text decode, or parse
failed, or when the parsed document is not a well-formed envelope. -/
def isMalformedOutcome (o : RecvOutcome) : Bool :=
  match o with
  | RecvOutcome.parsed j => !(isWellFormedEnvelope j)
  | _ => true

/-- The parsed document is the server-reported-failure envelope
`{"ERROR": m}`. -/
def isErrorEnvelope (j : Json) : Bool :=
  match j with
  | Json.obj [(k, _)] => k == "ERROR"
  | _ => false

/-- A receive outcome the client rejects: malformed, or an `ERROR`
envelope. -/
def isRejectedOutcome (o : RecvOutcome) : Bool :=
  match o with
  | RecvOutcome.parsed j => !(isWellFormedEnvelope j) || isErrorEnvelope j
  | _ => true

/-- A well-formed single-key reply whose kind is one of the three accepted
(non-`ERROR`) kinds: the outcomes whose payload `__do_request` hands back. -/
def isAcceptedReply (o : RecvOutcome) : Bool :=
  match o with
  | RecvOutcome.parsed (Json.obj [(k, _)]) =>
    (k == "TEST") || (k == "GET") || (k == "SET")
  | _ => false
/-- `bytes.decode('ASCII')`: succeeds, mapping each byte to the character of
the same code point, exactly when every byte is below `0x80`; any other byte
raises `UnicodeDecodeError`. -/
def asciiDecode : List Nat → Option (List Char)
  | [] => some []
  | b :: rest =>
    if b < 0x80 then (asciiDecode rest).map (fun cs => Char.ofNat b :: cs)
    else none

/-- Whether `b` is a UTF-8 continuation byte (`0x80..0xBF`). -/
def isContByte (b : Nat) : Bool := 0x80 ≤ b && b ≤ 0xBF

/-- One step of standard UTF-8 decoding (RFC 3629): decodes the leading
scalar value from the byte list and returns it with the remaining bytes,
rejecting truncated sequences, stray continuation bytes, overlong forms,
surrogates, and code points above `U+10FFFF`. -/
def utf8DecodeChar : List Nat → Option (Char × List Nat)
  | [] => none
  | b1 :: rest =>
    if b1 < 0x80 then
      some (Char.ofNat b1, rest)
    else if 0xC2 ≤ b1 && b1 ≤ 0xDF then
      match rest with
      | b2 :: rest2 =>
        if isContByte b2 then
          some (Char.ofNat ((b1 - 0xC0) * 0x40 + (b2 - 0x80)), rest2)
        else none
      | [] => none
    else if 0xE0 ≤ b1 && b1 ≤ 0xEF then
      match rest with
      | b2 :: b3 :: rest3 =>
        let cp := (b1 - 0xE0) * 0x1000 + (b2 - 0x80) * 0x40 + (b3 - 0x80)
        if isContByte b2 && isContByte b3 && 0x800 ≤ cp
            && !(0xD800 ≤ cp && cp ≤ 0xDFFF) then
          some (Char.ofNat cp, rest3)
        else none
      | _ => none
    else if 0xF0 ≤ b1 && b1 ≤ 0xF4 then
      match rest with
      | b2 :: b3 :: b4 :: rest4 =>
        let cp := (b1 - 0xF0) * 0x40000 + (b2 - 0x80) * 0x1000
          + (b3 - 0x80) * 0x40 + (b4 - 0x80)
        if isContByte b2 && isContByte b3 && isContByte b4
            && 0x10000 ≤ cp && cp ≤ 0x10FFFF then
          some (Char.ofNat cp, rest4)
        else none
      | _ => none
    else none

/-- UTF-8 decoding of a whole byte list, by iterating `utf8DecodeChar`.  The
fuel argument only bounds the iteration count; since every decoded character
consumes at least one byte, a fuel equal to the list length always
suffices. -/
def utf8DecodeAux : Nat → List Nat → Option (List Char)
  | _, [] => some []
  | 0, _ :: _ => none
  | fuel + 1, bs =>
    match utf8DecodeChar bs with
    | some (c, rest) => (utf8DecodeAux fuel rest).map (fun cs => c :: cs)
    | none => none

/-- `bytes.decode('UTF-8')` on a byte list: the decoded characters, or `none`
when the bytes are not valid UTF-8. -/
def utf8Decode (bs : List Nat) : Option (List Char) :=
  utf8DecodeAux bs.length bs

/-- The two decoding lines of `__do_request` applied to the raw reply bytes:
`recv = self.__socket.recv().decode('ASCII')` then
`response = loads(str(recv))`, feeding the parsed-level pipeline.  The
external `json.loads` is a parameter (`loads`), returning `none` when it
raises. -/
def doRequestBytes (loads : List Char → Option Json) (bs : List Nat) :
    Except PyError Json :=
  match asciiDecode bs with
  | none => doRequest RecvOutcome.decodeFail
  | some text =>
    match loads text with
    | none => doRequest RecvOutcome.parseFail
    | some j => doRequest (RecvOutcome.parsed j)
theorem doRequest_accepted (key : String) (v : Json)
    (hk : key = "TEST" ∨ key = "GET" ∨ key = "SET") :
    doRequest (RecvOutcome.parsed (Json.obj [(key, v)])) = Except.ok v := by
  rcases hk with h | h | h <;> subst h <;> rfl

theorem doRequest_error_envelope (v : Json) :
    doRequest (RecvOutcome.parsed (Json.obj [("ERROR", v)]))
      = Except.error (PyError.pyKeyError "ERROR") := rfl

theorem doRequest_bad_key (k : String) (v : Json)
    (h : k ∉ recognizedKinds) :
    doRequest (RecvOutcome.parsed (Json.obj [(k, v)]))
      = Except.error (PyError.zmbInvalidResponse Cause.assertBadKey) := by
  simp [doRequest, popitem, h]

theorem doRequest_not_one_key (e1 e2 : String × Json)
    (rest : List (String × Json)) :
    doRequest (RecvOutcome.parsed (Json.obj (e1 :: e2 :: rest)))
      = Except.error (PyError.zmbInvalidResponse Cause.assertKeyCount) := by
  simp [doRequest]

theorem doRequest_malformed (o : RecvOutcome) (h : isMalformedOutcome o = true) :
    ∃ c, doRequest o = Except.error (PyError.zmbInvalidResponse c) := by
  cases o with
  | transportFail => exact ⟨Cause.transport, rfl⟩
  | decodeFail => exact ⟨Cause.unicodeDecode, rfl⟩
  | parseFail => exact ⟨Cause.jsonParse, rfl⟩
  | parsed j =>
    cases j with
    | str s => exact ⟨Cause.assertNotDict, rfl⟩
    | num n => exact ⟨Cause.assertNotDict, rfl⟩
    | bool b => exact ⟨Cause.assertNotDict, rfl⟩
    | null => exact ⟨Cause.assertNotDict, rfl⟩
    | arr xs => exact ⟨Cause.assertNotDict, rfl⟩
    | obj entries =>
      match entries with
      | [] => exact ⟨Cause.assertKeyCount, rfl⟩
      | [(k, v)] =>
        simp [isMalformedOutcome, isWellFormedEnvelope] at h
        exact ⟨Cause.assertBadKey, doRequest_bad_key k v h⟩
      | e1 :: e2 :: rest =>
        exact ⟨Cause.assertKeyCount, doRequest_not_one_key e1 e2 rest⟩

theorem pyStrEqJson_iff (s : String) (v : Json) :
    pyStrEqJson s v = true ↔ v = Json.str s := by
  cases v with
  | str t =>
    simp only [pyStrEqJson, beq_iff_eq, Json.str.injEq]
    exact eq_comm
  | num n => simp [pyStrEqJson]
  | bool b => simp [pyStrEqJson]
  | null => simp [pyStrEqJson]
  | arr xs => simp [pyStrEqJson]
  | obj entries => simp [pyStrEqJson]
theorem ops_error (o : RecvOutcome) (e : PyError)
    (h : doRequest o = Except.error e) (uuid : String) (paths : List String)
    (pairs : List (String × Json)) :
    (ZmbClient.test uuid o).2 = Except.error e ∧
    (ZmbClient.get paths o).2 = Except.error e ∧
    (ZmbClient.set pairs o).2 = Except.error e := by
  refine ⟨?_, h, h⟩
  simp [ZmbClient.test, h]

theorem rejected_cases (o : RecvOutcome) (h : isRejectedOutcome o = true) :
    isMalformedOutcome o = true ∨
      ∃ v, o = RecvOutcome.parsed (Json.obj [("ERROR", v)]) := by
  cases o with
  | transportFail => exact Or.inl rfl
  | decodeFail => exact Or.inl rfl
  | parseFail => exact Or.inl rfl
  | parsed j =>
    cases j with
    | str s => exact Or.inl rfl
    | num n => exact Or.inl rfl
    | bool b => exact Or.inl rfl
    | null => exact Or.inl rfl
    | arr xs => exact Or.inl rfl
    | obj entries =>
      match entries with
      | [] => exact Or.inl rfl
      | [(k, v)] =>
        by_cases hk : k = "ERROR"
        · subst hk
          exact Or.inr ⟨v, rfl⟩
        · left
          simp [isRejectedOutcome, isWellFormedEnvelope, isErrorEnvelope, hk] at h
          simp [isMalformedOutcome, isWellFormedEnvelope, h]
      | e1 :: e2 :: rest => exact Or.inl rfl
/-- C1 (refuted by the code; evidence for its code_bug status): on the reply
envelope carrying `ERROR` with message "disk full", each of test, get and set
raises the uncaught `KeyError('ERROR')` produced by evaluating
`response[key]` after `popitem` already emptied the dict — not a
`ZeroModbusError` whose message is the server-supplied string; and no `ERROR`
reply ever produces the `zmbReported` error that would carry that string
unwrapped. -/
theorem c1_error_reply_raises_key_error :
    (ZmbClient.test "tok"
        (RecvOutcome.parsed (Json.obj [("ERROR", Json.str "disk full")]))).2
      = Except.error (PyError.pyKeyError "ERROR") ∧
    (ZmbClient.get ["/p"]
        (RecvOutcome.parsed (Json.obj [("ERROR", Json.str "disk full")]))).2
      = Except.error (PyError.pyKeyError "ERROR") ∧
    (ZmbClient.set [("/p", Json.num 1)]
        (RecvOutcome.parsed (Json.obj [("ERROR", Json.str "disk full")]))).2
      = Except.error (PyError.pyKeyError "ERROR") ∧
    ∀ m : String,
      doRequest (RecvOutcome.parsed (Json.obj [("ERROR", Json.str m)]))
        ≠ Except.error (PyError.zmbReported (Json.str m)) := by
  refine ⟨rfl, rfl, rfl, fun m h => ?_⟩
  rw [doRequest_error_envelope] at h
  simp at h

/-- C2: every reply that fails to decode as text, fails to parse, parses to a
non-mapping, has a key count other than one, or has an unrecognized single
key, and every transport-level failure while sending or receiving, makes each
of test, get and set raise `ZeroModbusError("INVAILED RESPONSE", e)` wrapping
the underlying cause, and never return a value. -/
theorem c2_malformed_raises_invalid_response (o : RecvOutcome)
    (h : isMalformedOutcome o = true) (uuid : String) (paths : List String)
    (pairs : List (String × Json)) :
    ∃ c : Cause,
      (ZmbClient.test uuid o).2
          = Except.error (PyError.zmbInvalidResponse c) ∧
      (ZmbClient.get paths o).2
          = Except.error (PyError.zmbInvalidResponse c) ∧
      (ZmbClient.set pairs o).2
          = Except.error (PyError.zmbInvalidResponse c) := by
  obtain ⟨c, hc⟩ := doRequest_malformed o h
  exact ⟨c, ops_error o _ hc uuid paths pairs⟩

theorem c2_witness :
    isMalformedOutcome (RecvOutcome.parsed (Json.arr [])) = true ∧
    ∃ c : Cause,
      (ZmbClient.test "u" (RecvOutcome.parsed (Json.arr []))).2
          = Except.error (PyError.zmbInvalidResponse c) ∧
      (ZmbClient.get [] (RecvOutcome.parsed (Json.arr []))).2
          = Except.error (PyError.zmbInvalidResponse c) ∧
      (ZmbClient.set [] (RecvOutcome.parsed (Json.arr []))).2
          = Except.error (PyError.zmbInvalidResponse c) :=
  ⟨rfl, c2_malformed_raises_invalid_response (RecvOutcome.parsed (Json.arr []))
    rfl "u" [] []⟩

/-- C3: test sends the envelope carrying `TEST` and the fresh token, returns
true exactly when the (single-key, recognized, non-ERROR) reply's payload is
the token string, returns false on any other payload, and never reports
success on an `ERROR`-tagged reply either. -/
theorem c3_test_round_trip (uuid key : String) (v : Json)
    (hk : key = "TEST" ∨ key = "GET" ∨ key = "SET") :
    (ZmbClient.test uuid (RecvOutcome.parsed (Json.obj [(key, v)]))).1
        = Json.obj [("TEST", Json.str uuid)] ∧
    ((ZmbClient.test uuid (RecvOutcome.parsed (Json.obj [(key, v)]))).2
        = Except.ok true ↔ v = Json.str uuid) ∧
    (v ≠ Json.str uuid →
      (ZmbClient.test uuid (RecvOutcome.parsed (Json.obj [(key, v)]))).2
        = Except.ok false) ∧
    ∀ w : Json,
      (ZmbClient.test uuid (RecvOutcome.parsed (Json.obj [("ERROR", w)]))).2
        ≠ Except.ok true := by
  have hd := doRequest_accepted key v hk
  refine ⟨rfl, ?_, ?_, ?_⟩
  · simp [ZmbClient.test, hd, pyStrEqJson_iff]
  · intro hne
    have hb : pyStrEqJson uuid v = false := by
      cases hb : pyStrEqJson uuid v with
      | false => rfl
      | true => exact absurd ((pyStrEqJson_iff uuid v).mp hb) hne
    simp [ZmbClient.test, hd, hb]
  · intro w
    simp [ZmbClient.test, doRequest_error_envelope]

theorem c3_witness :
    (ZmbClient.test "tok"
        (RecvOutcome.parsed (Json.obj [("TEST", Json.str "tok")]))).2
      = Except.ok true ∧
    (ZmbClient.test "tok"
        (RecvOutcome.parsed (Json.obj [("TEST", Json.num 7)]))).2
      = Except.ok false :=
  ⟨((c3_test_round_trip "tok" "TEST" (Json.str "tok") (Or.inl rfl)).2.1).mpr
      rfl,
   (c3_test_round_trip "tok" "TEST" (Json.num 7) (Or.inl rfl)).2.2.1
      (fun h => Json.noConfusion h)⟩

/-- C4: a single-key reply whose key is any recognized non-ERROR kind is
accepted and its payload handed back by every operation, whatever kind the
request had: get and set return the payload of, e.g., a SET-tagged or
TEST-tagged reply, and test compares it against the token — there is no
request/response kind matching. -/
theorem c4_no_kind_matching (key uuid : String) (v : Json)
    (paths : List String) (pairs : List (String × Json))
    (hk : key = "TEST" ∨ key = "GET" ∨ key = "SET") :
    (ZmbClient.get paths (RecvOutcome.parsed (Json.obj [(key, v)]))).2
        = Except.ok v ∧
    (ZmbClient.set pairs (RecvOutcome.parsed (Json.obj [(key, v)]))).2
        = Except.ok v ∧
    (ZmbClient.test uuid (RecvOutcome.parsed (Json.obj [(key, v)]))).2
        = Except.ok (pyStrEqJson uuid v) := by
  have hd := doRequest_accepted key v hk
  exact ⟨hd, hd, by simp [ZmbClient.test, hd]⟩

theorem c4_witness :
    (ZmbClient.get ["/x"]
        (RecvOutcome.parsed (Json.obj [("SET", Json.obj [])]))).2
      = Except.ok (Json.obj []) :=
  (c4_no_kind_matching "SET" "u" (Json.obj []) ["/x"] []
      (Or.inr (Or.inr rfl))).1

/-- C5: set sends the envelope carrying `SET` and the pairs, and returns the
reply payload unmodified; in particular the concrete scenario of the spec:
setting path "/a/b/c" to 123 against a server answering with that path mapped
to true returns that mapping. -/
theorem c5_set_sends_and_returns_payload
    (pairs : List (String × Json)) (v : Json) :
    (ZmbClient.set pairs (RecvOutcome.parsed (Json.obj [("SET", v)]))).1
        = Json.obj [("SET", Json.obj pairs)] ∧
    (ZmbClient.set pairs (RecvOutcome.parsed (Json.obj [("SET", v)]))).2
        = Except.ok v ∧
    ZmbClient.set [("/a/b/c", Json.num 123)]
        (RecvOutcome.parsed
          (Json.obj [("SET", Json.obj [("/a/b/c", Json.bool true)])]))
      = (Json.obj [("SET", Json.obj [("/a/b/c", Json.num 123)])],
         Except.ok (Json.obj [("/a/b/c", Json.bool true)])) :=
  ⟨rfl, doRequest_accepted "SET" v (Or.inr (Or.inr rfl)), rfl⟩

/-- C6: get sends the envelope carrying `GET` and the path sequence, returns
the reply payload unmodified, and the empty path list is legal: against a
server replying with `GET` and an empty mapping it returns the empty mapping
rather than an error. -/
theorem c6_get_sends_and_returns_payload (paths : List String) (v : Json) :
    (ZmbClient.get paths (RecvOutcome.parsed (Json.obj [("GET", v)]))).1
        = Json.obj [("GET", Json.arr (paths.map Json.str))] ∧
    (ZmbClient.get paths (RecvOutcome.parsed (Json.obj [("GET", v)]))).2
        = Except.ok v ∧
    ZmbClient.get [] (RecvOutcome.parsed (Json.obj [("GET", Json.obj [])]))
      = (Json.obj [("GET", Json.arr [])], Except.ok (Json.obj [])) :=
  ⟨rfl, doRequest_accepted "GET" v (Or.inr (Or.inl rfl)), rfl⟩
/-- The UTF-8 encoding of the well-formed reply envelope carrying `TEST` and
the one-character payload "é" (U+00E9): the bytes of
`\x7b"TEST":"é"\x7d`, where the payload character is the two-byte sequence
`0xC3 0xA9`. -/
def utf8ReplyBytes : List Nat :=
  [0x7b, 0x22, 0x54, 0x45, 0x53, 0x54, 0x22, 0x3a, 0x22, 0xc3, 0xa9, 0x22,
   0x7d]

/-- C7 (refuted by the code; evidence for its code_bug status): the reply
bytes `utf8ReplyBytes` are valid UTF-8 for the well-formed envelope text
carrying a non-ASCII payload, yet the client's `.decode('ASCII')` fails on
them, so the call raises `ZeroModbusError("INVAILED RESPONSE", ...)` with the
text-encoding failure as cause — for every behaviour of the external
`json.loads` — instead of decoding the reply. -/
theorem c7_utf8_reply_rejected_by_ascii_decode :
    utf8Decode utf8ReplyBytes
      = some [Char.ofNat 0x7b, Char.ofNat 0x22, Char.ofNat 0x54,
              Char.ofNat 0x45, Char.ofNat 0x53, Char.ofNat 0x54,
              Char.ofNat 0x22, Char.ofNat 0x3a, Char.ofNat 0x22,
              Char.ofNat 0xe9, Char.ofNat 0x22, Char.ofNat 0x7d] ∧
    asciiDecode utf8ReplyBytes = none ∧
    ∀ loads : List Char → Option Json,
      doRequestBytes loads utf8ReplyBytes
        = Except.error (PyError.zmbInvalidResponse Cause.unicodeDecode) :=
  ⟨by decide, by decide, fun loads => rfl⟩

/-- C8: every malformed reply and every ERROR envelope makes each of test,
get and set end in a raised exception — never a returned payload — and the
exception kind distinguishes the two failure classes: malformed replies raise
`ZeroModbusError("INVAILED RESPONSE", cause)`, while ERROR envelopes raise
the `KeyError` escaping the ERROR branch. -/
theorem c8_rejected_reply_always_raises (o : RecvOutcome) (uuid : String)
    (paths : List String) (pairs : List (String × Json))
    (h : isRejectedOutcome o = true) :
    (∃ e : PyError,
      (ZmbClient.test uuid o).2 = Except.error e ∧
      (ZmbClient.get paths o).2 = Except.error e ∧
      (ZmbClient.set pairs o).2 = Except.error e) ∧
    (isMalformedOutcome o = true →
      ∃ c, (ZmbClient.get paths o).2
        = Except.error (PyError.zmbInvalidResponse c)) ∧
    (∀ v : Json, o = RecvOutcome.parsed (Json.obj [("ERROR", v)]) →
      (ZmbClient.get paths o).2
        = Except.error (PyError.pyKeyError "ERROR")) := by
  refine ⟨?_, ?_, ?_⟩
  · rcases rejected_cases o h with hm | ⟨v, rfl⟩
    · obtain ⟨c, hc⟩ := doRequest_malformed o hm
      exact ⟨_, ops_error o _ hc uuid paths pairs⟩
    · exact ⟨_, ops_error _ _ (doRequest_error_envelope v) uuid paths pairs⟩
  · intro hm
    obtain ⟨c, hc⟩ := doRequest_malformed o hm
    exact ⟨c, hc⟩
  · rintro v rfl
    exact doRequest_error_envelope v

theorem c8_witness :
    isRejectedOutcome
        (RecvOutcome.parsed (Json.obj [("ERROR", Json.null)])) = true ∧
    ((∃ e : PyError,
        (ZmbClient.test "u"
            (RecvOutcome.parsed (Json.obj [("ERROR", Json.null)]))).2
          = Except.error e ∧
        (ZmbClient.get []
            (RecvOutcome.parsed (Json.obj [("ERROR", Json.null)]))).2
          = Except.error e ∧
        (ZmbClient.set []
            (RecvOutcome.parsed (Json.obj [("ERROR", Json.null)]))).2
          = Except.error e) ∧
      (isMalformedOutcome
          (RecvOutcome.parsed (Json.obj [("ERROR", Json.null)])) = true →
        ∃ c, (ZmbClient.get []
            (RecvOutcome.parsed (Json.obj [("ERROR", Json.null)]))).2
          = Except.error (PyError.zmbInvalidResponse c)) ∧
      (∀ v : Json,
        RecvOutcome.parsed (Json.obj [("ERROR", Json.null)])
          = RecvOutcome.parsed (Json.obj [("ERROR", v)]) →
        (ZmbClient.get []
            (RecvOutcome.parsed (Json.obj [("ERROR", Json.null)]))).2
          = Except.error (PyError.pyKeyError "ERROR"))) :=
  ⟨rfl, c8_rejected_reply_always_raises
    (RecvOutcome.parsed (Json.obj [("ERROR", Json.null)])) "u" [] [] rfl⟩

/-- C9: for get and set, the value handed back is computed from the received
reply alone: two calls whose request arguments differ but whose (well-formed,
non-ERROR) replies are identical return identical results. -/
theorem c9_result_depends_only_on_reply (o : RecvOutcome)
    (paths1 paths2 : List String) (pairs1 pairs2 : List (String × Json))
    (h : isAcceptedReply o = true) :
    (ZmbClient.get paths1 o).2 = (ZmbClient.get paths2 o).2 ∧
    (ZmbClient.set pairs1 o).2 = (ZmbClient.set pairs2 o).2 :=
  ⟨rfl, rfl⟩

theorem c9_witness :
    isAcceptedReply (RecvOutcome.parsed (Json.obj [("GET", Json.num 5)]))
        = true ∧
    (ZmbClient.get ["/a"]
        (RecvOutcome.parsed (Json.obj [("GET", Json.num 5)]))).2
      = (ZmbClient.get ["/b", "/c"]
        (RecvOutcome.parsed (Json.obj [("GET", Json.num 5)]))).2 ∧
    (ZmbClient.set [("/a", Json.num 1)]
        (RecvOutcome.parsed (Json.obj [("GET", Json.num 5)]))).2
      = (ZmbClient.set []
        (RecvOutcome.parsed (Json.obj [("GET", Json.num 5)]))).2 :=
  ⟨rfl,
   (c9_result_depends_only_on_reply
      (RecvOutcome.parsed (Json.obj [("GET", Json.num 5)]))
      ["/a"] ["/b", "/c"] [("/a", Json.num 1)] [] rfl).1,
   (c9_result_depends_only_on_reply
      (RecvOutcome.parsed (Json.obj [("GET", Json.num 5)]))
      ["/a"] ["/b", "/c"] [("/a", Json.num 1)] [] rfl).2⟩

/-- C10: test is total over well-formed non-ERROR replies: whatever the
payload's shape, the call returns some boolean rather than raising, and that
boolean is false whenever the payload is not the token string. -/
theorem c10_test_total_on_accepted (uuid key : String) (v : Json)
    (hk : key = "TEST" ∨ key = "GET" ∨ key = "SET") :
    ∃ b : Bool,
      (ZmbClient.test uuid (RecvOutcome.parsed (Json.obj [(key, v)]))).2
        = Except.ok b ∧
      (v ≠ Json.str uuid → b = false) := by
  have hd := doRequest_accepted key v hk
  refine ⟨pyStrEqJson uuid v, by simp [ZmbClient.test, hd], fun hne => ?_⟩
  cases hb : pyStrEqJson uuid v with
  | false => rfl
  | true => exact absurd ((pyStrEqJson_iff uuid v).mp hb) hne

theorem c10_witness :
    ("GET" = "TEST" ∨ "GET" = "GET" ∨ "GET" = "SET") ∧
    ∃ b : Bool,
      (ZmbClient.test "tok"
          (RecvOutcome.parsed (Json.obj [("GET", Json.arr [])]))).2
        = Except.ok b ∧
      (Json.arr [] ≠ Json.str "tok" → b = false) :=
  ⟨Or.inr (Or.inl rfl),
   c10_test_total_on_accepted "tok" "GET" (Json.arr [])
     (Or.inr (Or.inl rfl))⟩
